import Mathlib

/-!
Shallow embedding of the `limine-rs` boot-protocol binding library, together
with proofs about the request/response encoding and the accessor layer.

Conventions of the embedding:
* `u64` values are modelled as `Nat` (no arithmetic in this layer overflows;
  the one place a cast matters, the `i64 as u64` cast in
  `DateAtBootResponse::timestamp`, is modelled explicitly with `% 2^64`).
* A raw pointer into bootloader-owned memory is modelled as a `Nat` address,
  and the memory it points into as a partial map `Nat → Option α`; an address
  at which the map is `none` stands for memory the program may not read.
* A pointer to a NUL-terminated C string is modelled by the byte content
  (`List Nat`) stored at the pointer; `CStr::from_ptr` reads up to the first
  zero byte, which is `List.takeWhile`.
* Rust functions that can panic are modelled as returning `Option`, with
  `none` standing for the panic.
-/

/-- Model of `core::slice::from_raw_parts(base, len)` over a counted array of
pointers to elements, as used by `ArrayPtr::into_slice` and the
`from_raw_parts` calls in `response.rs`: element `i` of the produced slice is
whatever the foreign memory holds at slot `base + i` (the double indirection
pointer-to-pointer is collapsed into the memory map). -/
def sliceFromRawParts {α : Type} (mem : Nat → Option α) (base len : Nat) :
    List (Option α) :=
  (List.range len).map (fun i => mem (base + i))

theorem sliceFromRawParts_length {α : Type} (mem : Nat → Option α)
    (base len : Nat) : (sliceFromRawParts mem base len).length = len := by
  simp [sliceFromRawParts]

theorem sliceFromRawParts_zero {α : Type} (mem : Nat → Option α) (base : Nat) :
    sliceFromRawParts mem base 0 = [] := by
  simp [sliceFromRawParts]

/-- Model of `CStr::from_ptr` followed by `CStr::to_bytes`: the bytes stored at
the pointer, truncated at (and excluding) the first zero byte. -/
def cStrBytes (content : List Nat) : List Nat :=
  content.takeWhile (fun b => b != 0)

/-- Helper: is a byte a UTF-8 continuation byte (`0x80 ..= 0xBF`)? -/
def utf8Cont (b : Nat) : Bool :=
  0x80 ≤ b && b ≤ 0xBF

/-- Model of the UTF-8 validation performed by Rust's `str::from_utf8` (which
is what `CStr::to_str` calls): RFC 3629 well-formedness, rejecting overlong
encodings, surrogates and code points above `U+10FFFF`. -/
def utf8Valid : List Nat → Bool
  | [] => true
  | b :: rest =>
    if b ≤ 0x7F then utf8Valid rest
    else if 0xC2 ≤ b && b ≤ 0xDF then
      match rest with
      | c1 :: rest1 => utf8Cont c1 && utf8Valid rest1
      | [] => false
    else if b == 0xE0 then
      match rest with
      | c1 :: c2 :: rest2 =>
        (0xA0 ≤ c1 && c1 ≤ 0xBF) && utf8Cont c2 && utf8Valid rest2
      | _ => false
    else if (0xE1 ≤ b && b ≤ 0xEC) || b == 0xEE || b == 0xEF then
      match rest with
      | c1 :: c2 :: rest2 => utf8Cont c1 && utf8Cont c2 && utf8Valid rest2
      | _ => false
    else if b == 0xED then
      match rest with
      | c1 :: c2 :: rest2 =>
        (0x80 ≤ c1 && c1 ≤ 0x9F) && utf8Cont c2 && utf8Valid rest2
      | _ => false
    else if b == 0xF0 then
      match rest with
      | c1 :: c2 :: c3 :: rest3 =>
        (0x90 ≤ c1 && c1 ≤ 0xBF) && utf8Cont c2 && utf8Cont c3 &&
          utf8Valid rest3
      | _ => false
    else if 0xF1 ≤ b && b ≤ 0xF3 then
      match rest with
      | c1 :: c2 :: c3 :: rest3 =>
        utf8Cont c1 && utf8Cont c2 && utf8Cont c3 && utf8Valid rest3
      | _ => false
    else if b == 0xF4 then
      match rest with
      | c1 :: c2 :: c3 :: rest3 =>
        (0x80 ≤ c1 && c1 ≤ 0x8F) && utf8Cont c2 && utf8Cont c3 &&
          utf8Valid rest3
      | _ => false
    else false

/-- Embedding of `memory_map::EntryType` (`src/src/memory_map.rs`): a
`repr(transparent)` wrapper around a `u64` code. -/
structure EntryType where
  val : Nat
deriving DecidableEq, Repr

def EntryType.USABLE : EntryType := ⟨0⟩
def EntryType.RESERVED : EntryType := ⟨1⟩
def EntryType.ACPI_RECLAIMABLE : EntryType := ⟨2⟩
def EntryType.ACPI_NVS : EntryType := ⟨3⟩
def EntryType.BAD_MEMORY : EntryType := ⟨4⟩
def EntryType.BOOTLOADER_RECLAIMABLE : EntryType := ⟨5⟩
def EntryType.KERNEL_AND_MODULES : EntryType := ⟨6⟩
def EntryType.FRAMEBUFFER : EntryType := ⟨7⟩

/-- Embedding of `impl From<u64> for EntryType` (`Self(val)`). -/
def EntryType.fromU64 (val : Nat) : EntryType := ⟨val⟩

/-- Embedding of `firmware_type::FirmwareType` (`src/src/firmware_type.rs`):
a `repr(transparent)` wrapper around a `u64` code. -/
structure FirmwareType where
  val : Nat
deriving DecidableEq, Repr

def FirmwareType.X86_BIOS : FirmwareType := ⟨0⟩
def FirmwareType.UEFI_32 : FirmwareType := ⟨1⟩
def FirmwareType.UEFI_64 : FirmwareType := ⟨2⟩

/-- Embedding of `impl From<u64> for FirmwareType` (`Self(value)`). -/
def FirmwareType.fromU64 (val : Nat) : FirmwareType := ⟨val⟩

/-- Embedding of `paging::Mode` (`src/src/paging.rs`): a `repr(transparent)`
wrapper around a `u64` code. The named constants are the x86_64/aarch64
configuration (`FOUR_LEVEL = 0`, `FIVE_LEVEL = 1`). -/
structure Mode where
  val : Nat
deriving DecidableEq, Repr

def Mode.FOUR_LEVEL : Mode := ⟨0⟩
def Mode.FIVE_LEVEL : Mode := ⟨1⟩
def Mode.DEFAULT : Mode := Mode.FOUR_LEVEL
def Mode.MAX : Mode := Mode.FIVE_LEVEL
def Mode.MIN : Mode := Mode.FOUR_LEVEL

/-- Embedding of `impl From<u64> for Mode` (`Self(value)`). -/
def Mode.fromU64 (val : Nat) : Mode := ⟨val⟩

/-- Embedding of `memory_map::Entry`: a (base, length, type) triple. -/
structure Entry where
  base : Nat
  length : Nat
  entry_type : EntryType
deriving DecidableEq, Repr

/-- C5: for every enumerated protocol field (memory-region entry type,
firmware type, paging mode), decoding any 64-bit integer code succeeds (the
`From<u64>` conversions are total), preserves the code value, and is
injective, so an unknown/future code is distinguishable from every defined
named constant; a decoded value equals a named constant exactly when the code
is that constant's code. -/
theorem c5_enum_decode_total_and_distinguishable :
    (∀ c : Nat, (EntryType.fromU64 c).val = c)
    ∧ (∀ c d : Nat, EntryType.fromU64 c = EntryType.fromU64 d ↔ c = d)
    ∧ (∀ c : Nat,
        (EntryType.fromU64 c = EntryType.USABLE ↔ c = 0)
        ∧ (EntryType.fromU64 c = EntryType.RESERVED ↔ c = 1)
        ∧ (EntryType.fromU64 c = EntryType.ACPI_RECLAIMABLE ↔ c = 2)
        ∧ (EntryType.fromU64 c = EntryType.ACPI_NVS ↔ c = 3)
        ∧ (EntryType.fromU64 c = EntryType.BAD_MEMORY ↔ c = 4)
        ∧ (EntryType.fromU64 c = EntryType.BOOTLOADER_RECLAIMABLE ↔ c = 5)
        ∧ (EntryType.fromU64 c = EntryType.KERNEL_AND_MODULES ↔ c = 6)
        ∧ (EntryType.fromU64 c = EntryType.FRAMEBUFFER ↔ c = 7))
    ∧ (∀ c : Nat, (FirmwareType.fromU64 c).val = c)
    ∧ (∀ c d : Nat, FirmwareType.fromU64 c = FirmwareType.fromU64 d ↔ c = d)
    ∧ (∀ c : Nat,
        (FirmwareType.fromU64 c = FirmwareType.X86_BIOS ↔ c = 0)
        ∧ (FirmwareType.fromU64 c = FirmwareType.UEFI_32 ↔ c = 1)
        ∧ (FirmwareType.fromU64 c = FirmwareType.UEFI_64 ↔ c = 2))
    ∧ (∀ c : Nat, (Mode.fromU64 c).val = c)
    ∧ (∀ c d : Nat, Mode.fromU64 c = Mode.fromU64 d ↔ c = d)
    ∧ (∀ c : Nat,
        (Mode.fromU64 c = Mode.FOUR_LEVEL ↔ c = 0)
        ∧ (Mode.fromU64 c = Mode.FIVE_LEVEL ↔ c = 1)) := by
  refine ⟨fun c => rfl, fun c d => ?_, fun c => ?_, fun c => rfl,
    fun c d => ?_, fun c => ?_, fun c => rfl, fun c d => ?_, fun c => ?_⟩
  · simp [EntryType.fromU64, EntryType.mk.injEq]
  · simp [EntryType.fromU64, EntryType.USABLE, EntryType.RESERVED,
      EntryType.ACPI_RECLAIMABLE, EntryType.ACPI_NVS, EntryType.BAD_MEMORY,
      EntryType.BOOTLOADER_RECLAIMABLE, EntryType.KERNEL_AND_MODULES,
      EntryType.FRAMEBUFFER, EntryType.mk.injEq]
  · simp [FirmwareType.fromU64, FirmwareType.mk.injEq]
  · simp [FirmwareType.fromU64, FirmwareType.X86_BIOS, FirmwareType.UEFI_32,
      FirmwareType.UEFI_64, FirmwareType.mk.injEq]
  · simp [Mode.fromU64, Mode.mk.injEq]
  · simp [Mode.fromU64, Mode.FOUR_LEVEL, Mode.FIVE_LEVEL, Mode.mk.injEq]

/-- Model of `CStr::to_str` as used by `BootloaderInfoResponse::name/version`
(`src/src/response.rs`): read the bytes up to the first NUL, then validate
them as UTF-8; `none` models the `Err(Utf8Error)` case (which `unwrap`
turns into a panic). -/
def cStrToStr (content : List Nat) : Option (List Nat) :=
  if utf8Valid (cStrBytes content) then some (cStrBytes content) else none

/-- Embedding of `Ptr<c_char>` (`src/src/lib.rs`): a possibly-null pointer to
a C string, modelled by the optional byte content stored at the pointer. -/
structure PtrCChar where
  ptr : Option (List Nat)

/-- Embedding of `Ptr::<c_char>::to_str` (`src/src/lib.rs` lines 116-126):
`None` for a null pointer, otherwise the C string at the pointer (bytes up to
the first NUL); no UTF-8 validation is performed there. -/
def PtrCChar.to_str (p : PtrCChar) : Option (List Nat) :=
  p.ptr.map (fun content => cStrBytes content)

/-- Embedding of `file::Uuid` (`src/src/file.rs`). -/
structure Uuid where
  a : Nat
  b : Nat
  c : Nat
  d : List Nat
deriving DecidableEq, Repr

/-- Embedding of `file::MediaType` (`src/src/file.rs`). -/
structure MediaType where
  val : Nat
deriving DecidableEq, Repr

/-- Embedding of `file::File` (`src/src/file.rs`). The raw `*const c_char`
fields are modelled by the byte content stored behind them; the
`MaybeUninit<u32>` padding field is omitted since no accessor reads it. -/
structure File where
  revision : Nat
  addr : Nat
  size : Nat
  path_content : List Nat
  cmdline_content : List Nat
  media_type : MediaType
  tftp_ip : Option Nat
  tftp_port : Option Nat
  partition_idx : Option Nat
  mbr_disk_id : Option Nat
  gpt_disk_id : Uuid
  gpt_partition_id : Uuid
  partition_uuid : Uuid

/-- Embedding of `File::path` (`src/src/file.rs` lines 103-106):
`CStr::from_ptr` followed by `to_bytes`, no encoding validation. -/
def File.path (f : File) : List Nat :=
  cStrBytes f.path_content

/-- Embedding of `File::cmdline` (`src/src/file.rs` lines 113-116). -/
def File.cmdline (f : File) : List Nat :=
  cStrBytes f.cmdline_content

/-- Embedding of `response::BootloaderInfoResponse` (`src/src/response.rs`),
with the two `*const c_char` fields modelled by their byte content. -/
structure BootloaderInfoResponse where
  revision : Nat
  name_content : List Nat
  version_content : List Nat

/-- Embedding of `BootloaderInfoResponse::name` (`src/src/response.rs` lines
40-42): `CStr::from_ptr(self.name).to_str().unwrap()`; the `unwrap` panic on
invalid UTF-8 is modelled as `none`. -/
def BootloaderInfoResponse.name (r : BootloaderInfoResponse) :
    Option (List Nat) :=
  cStrToStr r.name_content

/-- Embedding of `BootloaderInfoResponse::version` (`src/src/response.rs`
lines 45-47). -/
def BootloaderInfoResponse.version (r : BootloaderInfoResponse) :
    Option (List Nat) :=
  cStrToStr r.version_content

/-- Embedding of `response::ExecutableCmdlineResponse`
(`src/src/response.rs`), with the `*const c_char` field modelled by its byte
content. -/
structure ExecutableCmdlineResponse where
  revision : Nat
  cmdline_content : List Nat

/-- Embedding of `ExecutableCmdlineResponse::cmdline` (`src/src/response.rs`
lines 481-483): `CStr::from_ptr(self.cmdline)`, no encoding validation. -/
def ExecutableCmdlineResponse.cmdline (r : ExecutableCmdlineResponse) :
    List Nat :=
  cStrBytes r.cmdline_content

theorem cStrBytes_stops_at_first_nul (bs tail : List Nat) :
    cStrBytes (bs ++ 0 :: tail) = cStrBytes (bs ++ [0]) := by
  induction bs with
  | nil => simp [cStrBytes]
  | cons b rest ih =>
    by_cases hb : b = 0
    · simp [cStrBytes, hb]
    · simpa [cStrBytes, List.takeWhile_cons, hb] using ih

/-- C6: the character-pointer-to-text accessors (`Ptr::<c_char>::to_str`,
`File::path`, `File::cmdline`, `ExecutableCmdlineResponse::cmdline`) decode
the bytes `"abc\0"` to exactly `"abc"` (length 3, terminator excluded) and
`"\0"` to the empty string, and the decoded text never depends on any byte
past the first zero byte (appending an arbitrary tail after the first NUL
leaves the result unchanged). -/
theorem c6_cstring_decoding :
    (∀ tail : List Nat, cStrBytes ([97, 98, 99, 0] ++ tail) = [97, 98, 99])
    ∧ (∀ tail : List Nat, cStrBytes (0 :: tail) = [])
    ∧ (∀ bs tail : List Nat,
        cStrBytes (bs ++ 0 :: tail) = cStrBytes (bs ++ [0]))
    ∧ (∀ content : List Nat,
        PtrCChar.to_str ⟨some content⟩ = some (cStrBytes content))
    ∧ PtrCChar.to_str ⟨none⟩ = none
    ∧ (∀ tail : List Nat,
        PtrCChar.to_str ⟨some ([97, 98, 99, 0] ++ tail)⟩ = some [97, 98, 99])
    ∧ (∀ (rv addr size : Nat) (cmdl : List Nat) (mt : MediaType)
        (ip port pidx mbr : Option Nat) (g1 g2 g3 : Uuid) (tail : List Nat),
        (File.mk rv addr size ([97, 98, 99, 0] ++ tail) cmdl mt ip port pidx
          mbr g1 g2 g3).path = [97, 98, 99])
    ∧ (∀ (rv addr size : Nat) (pathc : List Nat) (mt : MediaType)
        (ip port pidx mbr : Option Nat) (g1 g2 g3 : Uuid) (tail : List Nat),
        (File.mk rv addr size pathc (0 :: tail) mt ip port pidx mbr g1 g2
          g3).cmdline = [])
    ∧ (∀ (rv : Nat) (tail : List Nat),
        (ExecutableCmdlineResponse.mk rv ([97, 98, 99, 0] ++ tail)).cmdline
          = [97, 98, 99])
    ∧ (∀ (rv : Nat) (tail : List Nat),
        (ExecutableCmdlineResponse.mk rv (0 :: tail)).cmdline = []) := by
  refine ⟨fun tail => ?_, fun tail => ?_, cStrBytes_stops_at_first_nul,
    fun content => rfl, rfl, fun tail => ?_, ?_, ?_, ?_, ?_⟩ <;>
    simp [cStrBytes, PtrCChar.to_str, File.path, File.cmdline,
      ExecutableCmdlineResponse.cmdline]

/-- C3, counterexample: the claim says the bootloader name accessor returns a
value for every byte content of the pointed-to C string without re-validating
the encoding. In the code, `BootloaderInfoResponse::name` calls
`CStr::from_ptr(..).to_str().unwrap()`, which does validate UTF-8 and panics
on failure: at the concrete content `[0xFF, 0x00]` (an invalid UTF-8 byte
followed by the terminator) the accessor panics (modelled as `none`) instead
of returning a value. -/
theorem c3_counterexample_name_panics_on_invalid_utf8 :
    (BootloaderInfoResponse.mk 0 [255, 0] [0]).name = none := by decide

/-- C3, amended: `BootloaderInfoResponse::name` and `version` do re-validate
the encoding: they return a value exactly when the bytes before the first NUL
are valid UTF-8, and panic (via `unwrap`) otherwise. The other text accessors
of the layer (`Ptr::<c_char>::to_str`, `File::path/cmdline`,
`ExecutableCmdlineResponse::cmdline`) perform no validation and return a
value for every content, as the totality of their embeddings shows. -/
theorem c3_name_version_validate_utf8 (r : BootloaderInfoResponse) :
    r.name.isSome = utf8Valid (cStrBytes r.name_content)
    ∧ r.version.isSome = utf8Valid (cStrBytes r.version_content) := by
  constructor <;>
  · simp only [BootloaderInfoResponse.name, BootloaderInfoResponse.version,
      cStrToStr]
    split <;> simp_all

/-- Embedding of `framebuffer::MemoryModel` (`src/src/framebuffer.rs`). -/
structure MemoryModel where
  val : Nat
deriving DecidableEq, Repr

def MemoryModel.RGB : MemoryModel := ⟨1⟩

/-- Embedding of `framebuffer::VideoMode` (`src/src/framebuffer.rs`). -/
structure VideoMode where
  pitch : Nat
  width : Nat
  height : Nat
  bpp : Nat
  memory_model : MemoryModel
  red_mask_size : Nat
  red_mask_shift : Nat
  green_mask_size : Nat
  green_mask_shift : Nat
  blue_mask_size : Nat
  blue_mask_shift : Nat
deriving DecidableEq, Repr

/-- Embedding of `framebuffer::RawFramebuffer` (`src/src/framebuffer.rs`): the
`union` of `RawFramebufferV0` and `RawFramebufferV1` flattened into a single
record; the two revision-1 fields (`mode_ct`, `modes`) occupy the bytes past
the end of the revision-0 layout and are meaningful only when the owning
response's revision is at least 1, which is exactly what
`Framebuffer::modes` gates on. -/
structure RawFramebuffer where
  addr : Nat
  width : Nat
  height : Nat
  pitch : Nat
  bpp : Nat
  memory_model : MemoryModel
  red_mask_size : Nat
  red_mask_shift : Nat
  green_mask_size : Nat
  green_mask_shift : Nat
  blue_mask_size : Nat
  blue_mask_shift : Nat
  edid_size : Nat
  edid : Option Nat
  mode_ct : Nat
  modes_base : Nat

/-- Embedding of `framebuffer::Framebuffer` (`src/src/framebuffer.rs`): a raw
framebuffer together with the revision recorded from the response that
produced it. -/
structure Framebuffer where
  revision : Nat
  inner : RawFramebuffer

/-- Embedding of `Framebuffer::new` (`src/src/framebuffer.rs` lines 96-98). -/
def Framebuffer.new (revision : Nat) (inner : RawFramebuffer) : Framebuffer :=
  ⟨revision, inner⟩

/-- Embedding of `Framebuffer::modes` (`src/src/framebuffer.rs` lines
177-187): `match self.revision { 0 => None, 1.. => Some(slice) }`, where the
slice is built from the revision-1 `(modes, mode_ct)` pair. -/
def Framebuffer.modes (f : Framebuffer) (mem : Nat → Option VideoMode) :
    Option (List (Option VideoMode)) :=
  match f.revision with
  | 0 => none
  | Nat.succ _ => some (sliceFromRawParts mem f.inner.modes_base f.inner.mode_ct)

/-- Embedding of `response::FramebufferResponse` (`src/src/response.rs`),
with the `*const *const RawFramebuffer` base pointer modelled as an address. -/
structure FramebufferResponse where
  revision : Nat
  framebuffer_ct : Nat
  framebuffers_base : Nat

/-- Embedding of `FramebufferResponse::framebuffers` (`src/src/response.rs`
lines 129-133): the counted slice at `(framebuffers, framebuffer_ct)`, each
element wrapped by `Framebuffer::new(self.revision, ..)`. -/
def FramebufferResponse.framebuffers (r : FramebufferResponse)
    (mem : Nat → Option RawFramebuffer) : List (Option Framebuffer) :=
  (sliceFromRawParts mem r.framebuffers_base r.framebuffer_ct).map
    (fun ofb => ofb.map (Framebuffer.new r.revision))

/-- Embedding of `response::MemoryMapResponse` (`src/src/response.rs`). -/
structure MemoryMapResponse where
  revision : Nat
  entry_ct : Nat
  entries_base : Nat

/-- Embedding of `MemoryMapResponse::entries` (`src/src/response.rs` lines
236-238): `from_raw_parts(self.entries.cast(), self.entry_ct as usize)`. -/
def MemoryMapResponse.entries (r : MemoryMapResponse)
    (mem : Nat → Option Entry) : List (Option Entry) :=
  sliceFromRawParts mem r.entries_base r.entry_ct

/-- Embedding of `MemoryMapResponse::entries_mut` (`src/src/response.rs`
lines 244-246): same `(pointer, count)` pair as `entries`. -/
def MemoryMapResponse.entries_mut (r : MemoryMapResponse)
    (mem : Nat → Option Entry) : List (Option Entry) :=
  sliceFromRawParts mem r.entries_base r.entry_ct

/-- Embedding of `response::ModuleResponse` (`src/src/response.rs`). -/
structure ModuleResponse where
  revision : Nat
  module_ct : Nat
  modules_base : Nat

/-- Embedding of `ModuleResponse::modules` (`src/src/response.rs` lines
293-295). -/
def ModuleResponse.modules (r : ModuleResponse) (mem : Nat → Option File) :
    List (Option File) :=
  sliceFromRawParts mem r.modules_base r.module_ct

/-- Embedding of `mp::GotoAddress` (`src/src/mp.rs`): the atomically-written
jump-target slot, holding a function-pointer address (0 for null). -/
structure GotoAddress where
  inner : Nat

/-- Embedding of `mp::Cpu` (`src/src/mp.rs`, x86_64 layout). -/
structure Cpu where
  id : Nat
  lapic_id : Nat
  goto_address : GotoAddress
  extra : Nat

/-- Embedding of `response::MpResponse` (`src/src/response.rs`, x86_64
layout). -/
structure MpResponse where
  revision : Nat
  flags : Nat
  bsp_lapic_id : Nat
  cpu_ct : Nat
  cpus_base : Nat

/-- Embedding of `MpResponse::cpus` (`src/src/response.rs` lines 209-211). -/
def MpResponse.cpus (r : MpResponse) (mem : Nat → Option Cpu) :
    List (Option Cpu) :=
  sliceFromRawParts mem r.cpus_base r.cpu_ct

/-- Embedding of `MpResponse::cpus_mut` (`src/src/response.rs` lines
217-219): same `(pointer, count)` pair as `cpus`. -/
def MpResponse.cpus_mut (r : MpResponse) (mem : Nat → Option Cpu) :
    List (Option Cpu) :=
  sliceFromRawParts mem r.cpus_base r.cpu_ct

/-- Embedding of the deprecated alias `response::SmpResponse`. -/
abbrev SmpResponse := MpResponse

/-- Embedding of `response::BootloaderInfoResponse`-style scalar responses:
`StackSizeResponse` has only the revision field. -/
structure StackSizeResponse where
  revision : Nat

/-- Embedding of `response::FirmwareTypeResponse`. -/
structure FirmwareTypeResponse where
  revision : Nat
  firmware_type : FirmwareType

/-- Embedding of `response::HhdmResponse`. -/
structure HhdmResponse where
  revision : Nat
  offset : Nat

/-- Embedding of `response::PagingModeResponse`. -/
structure PagingModeResponse where
  revision : Nat
  mode : Mode

/-- Embedding of `response::EntryPointResponse`. -/
structure EntryPointResponse where
  revision : Nat

/-- Embedding of `response::ExecutableFileResponse`, with the
`*const file::File` field modelled by the pointed-to file. -/
structure ExecutableFileResponse where
  revision : Nat
  file_content : File

/-- Embedding of the deprecated alias `response::KernelFileResponse`. -/
abbrev KernelFileResponse := ExecutableFileResponse

/-- Embedding of `response::RsdpResponse`. -/
structure RsdpResponse where
  revision : Nat
  address : Nat

/-- Embedding of `response::SmbiosResponse`. -/
structure SmbiosResponse where
  revision : Nat
  entry_32 : Option Nat
  entry_64 : Option Nat

/-- Embedding of `response::EfiSystemTableResponse`. -/
structure EfiSystemTableResponse where
  revision : Nat
  address : Nat

/-- Embedding of `response::EfiMemoryMapResponse`. -/
structure EfiMemoryMapResponse where
  revision : Nat
  memmap : Nat
  memmap_size : Nat
  desc_size : Nat
  desc_version : Nat

/-- Embedding of `response::DateAtBootResponse`: the raw field is a signed
64-bit timestamp. -/
structure DateAtBootResponse where
  revision : Nat
  timestamp : Int

/-- Model of Rust's `i64 as u64` cast: two's-complement reinterpretation,
i.e. reduction modulo `2^64` into `[0, 2^64)`. -/
def i64AsU64 (t : Int) : Nat :=
  (t % (2 : Int) ^ 64).toNat

/-- Embedding of `DateAtBootResponse::timestamp` (`src/src/response.rs` lines
401-403): `Duration::from_secs(self.timestamp as u64)`, modelled as the
number of seconds of the returned `Duration`. -/
def DateAtBootResponse.timestamp_secs (r : DateAtBootResponse) : Nat :=
  i64AsU64 r.timestamp

/-- Embedding of the deprecated `DateAtBootResponse::boot_time`
(`src/src/response.rs` lines 410-412): forwards to `timestamp`. -/
def DateAtBootResponse.boot_time (r : DateAtBootResponse) : Nat :=
  r.timestamp_secs

/-- Embedding of the deprecated alias `response::BootTimeResponse`. -/
abbrev BootTimeResponse := DateAtBootResponse

/-- Embedding of `response::ExecutableAddressResponse`. -/
structure ExecutableAddressResponse where
  revision : Nat
  physical_base : Nat
  virtual_base : Nat

/-- Embedding of the deprecated alias `response::KernelAddressResponse`. -/
abbrev KernelAddressResponse := ExecutableAddressResponse

/-- Embedding of `response::DeviceTreeBlobResponse`. -/
structure DeviceTreeBlobResponse where
  revision : Nat
  dtb_ptr : Nat

/-- Embedding of the `magic!` macro (`src/src/request.rs` lines 72-76): the
fixed common magic pair followed by the two feature-specific words. -/
def limineMagic (first second : Nat) : List Nat :=
  [0xc7b1dd30df4c8b88, 0x0a82e883a194f07b, first, second]

/-- Embedding of `request::Response<T>` (`src/src/request.rs` lines 111-131):
the response slot, an `UnsafeCell<Option<NonNull<T>>>` mutated only by the
bootloader; modelled by the optional pointed-to response value. -/
structure Response (α : Type) where
  inner : Option α

/-- Embedding of `Response::none`. -/
def Response.none {α : Type} : Response α :=
  ⟨Option.none⟩

/-- Embedding of `Response::get`: a volatile read of the slot, returning a
reference exactly when the slot is non-null. -/
def Response.get {α : Type} (r : Response α) : Option α :=
  r.inner

/-- Embedding of `Response::get_mut`: same volatile read, mutable variant. -/
def Response.get_mut {α : Type} (r : Response α) : Option α :=
  r.inner

/-- Embedding of `modules::InternalModule` (`src/src/modules.rs`), with the
C-string pointers modelled by their byte content. -/
structure InternalModule where
  path_content : List Nat
  cmdline_content : List Nat
  flags : Nat

/-- Embedding of `request::StackSizeRequest` (`src/src/request.rs` lines
208-237). -/
structure StackSizeRequest where
  id : List Nat
  revision : Nat
  response : Response StackSizeResponse
  size : Nat

/-- Embedding of `StackSizeRequest::with_revision`. -/
def StackSizeRequest.with_revision (revision : Nat) : StackSizeRequest :=
  { id := limineMagic 0x224ef0460a8e8926 0xe1cb0fc25f46ea3d
    revision := revision
    response := Response.none
    size := 0 }

/-- Embedding of `StackSizeRequest::new` (latest revision 0). -/
def StackSizeRequest.new : StackSizeRequest :=
  StackSizeRequest.with_revision 0

/-- Embedding of `StackSizeRequest::get_response`. -/
def StackSizeRequest.get_response (r : StackSizeRequest) :
    Option StackSizeResponse :=
  r.response.get

/-- Embedding of `StackSizeRequest::set_size` (the in-place setter generated
by the `setter!` macro). -/
def StackSizeRequest.set_size (r : StackSizeRequest) (size : Nat) :
    StackSizeRequest :=
  { r with size := size }

/-- Embedding of `StackSizeRequest::with_size` (the consuming setter). -/
def StackSizeRequest.with_size (r : StackSizeRequest) (size : Nat) :
    StackSizeRequest :=
  { r with size := size }

/-- The configuration setter calls available on a `StackSizeRequest`. -/
inductive StackSizeOp where
  | setSize (v : Nat)
  | withSize (v : Nat)

def StackSizeRequest.applyOp (r : StackSizeRequest) :
    StackSizeOp → StackSizeRequest
  | StackSizeOp.setSize v => r.set_size v
  | StackSizeOp.withSize v => r.with_size v

def StackSizeRequest.applyOps (r : StackSizeRequest)
    (ops : List StackSizeOp) : StackSizeRequest :=
  ops.foldl StackSizeRequest.applyOp r

/-- Embedding of `request::PagingModeRequest` (`src/src/request.rs` lines
316-379). -/
structure PagingModeRequest where
  id : List Nat
  revision : Nat
  response : Response PagingModeResponse
  mode : Mode
  max_mode : Mode
  min_mode : Mode

/-- Embedding of `PagingModeRequest::with_revision`. -/
def PagingModeRequest.with_revision (revision : Nat) : PagingModeRequest :=
  { id := limineMagic 0x95c1a0edab0944cb 0xa4e5cb3842f7488a
    revision := revision
    response := Response.none
    mode := Mode.DEFAULT
    max_mode := Mode.DEFAULT
    min_mode := Mode.MIN }

/-- Embedding of `PagingModeRequest::new` (latest revision 1). -/
def PagingModeRequest.new : PagingModeRequest :=
  PagingModeRequest.with_revision 1

/-- Embedding of `PagingModeRequest::get_response`. -/
def PagingModeRequest.get_response (r : PagingModeRequest) :
    Option PagingModeResponse :=
  r.response.get

def PagingModeRequest.set_mode (r : PagingModeRequest) (mode : Mode) :
    PagingModeRequest :=
  { r with mode := mode }

def PagingModeRequest.with_mode (r : PagingModeRequest) (mode : Mode) :
    PagingModeRequest :=
  { r with mode := mode }

def PagingModeRequest.set_max_mode (r : PagingModeRequest) (max_mode : Mode) :
    PagingModeRequest :=
  { r with max_mode := max_mode }

def PagingModeRequest.with_max_mode (r : PagingModeRequest)
    (max_mode : Mode) : PagingModeRequest :=
  { r with max_mode := max_mode }

def PagingModeRequest.set_min_mode (r : PagingModeRequest) (min_mode : Mode) :
    PagingModeRequest :=
  { r with min_mode := min_mode }

def PagingModeRequest.with_min_mode (r : PagingModeRequest)
    (min_mode : Mode) : PagingModeRequest :=
  { r with min_mode := min_mode }

/-- The configuration setter calls available on a `PagingModeRequest`. -/
inductive PagingModeOp where
  | setMode (m : Mode)
  | withMode (m : Mode)
  | setMaxMode (m : Mode)
  | withMaxMode (m : Mode)
  | setMinMode (m : Mode)
  | withMinMode (m : Mode)

def PagingModeRequest.applyOp (r : PagingModeRequest) :
    PagingModeOp → PagingModeRequest
  | PagingModeOp.setMode m => r.set_mode m
  | PagingModeOp.withMode m => r.with_mode m
  | PagingModeOp.setMaxMode m => r.set_max_mode m
  | PagingModeOp.withMaxMode m => r.with_max_mode m
  | PagingModeOp.setMinMode m => r.set_min_mode m
  | PagingModeOp.withMinMode m => r.with_min_mode m

def PagingModeRequest.applyOps (r : PagingModeRequest)
    (ops : List PagingModeOp) : PagingModeRequest :=
  ops.foldl PagingModeRequest.applyOp r

/-- Embedding of `request::SmpRequest` (`src/src/request.rs` lines 397-428);
the `smp::RequestFlags` bitflags value is modelled as its underlying `u64`. -/
structure SmpRequest where
  id : List Nat
  revision : Nat
  response : Response SmpResponse
  flags : Nat

/-- Embedding of `SmpRequest::with_revision` (`RequestFlags::empty()` is 0). -/
def SmpRequest.with_revision (revision : Nat) : SmpRequest :=
  { id := limineMagic 0x95a67b819a1b857e 0xa0b61b723b6a73e0
    revision := revision
    response := Response.none
    flags := 0 }

/-- Embedding of `SmpRequest::new` (latest revision 0). -/
def SmpRequest.new : SmpRequest :=
  SmpRequest.with_revision 0

/-- Embedding of `SmpRequest::get_response`. -/
def SmpRequest.get_response (r : SmpRequest) : Option SmpResponse :=
  r.response.get

def SmpRequest.set_flags (r : SmpRequest) (flags : Nat) : SmpRequest :=
  { r with flags := flags }

def SmpRequest.with_flags (r : SmpRequest) (flags : Nat) : SmpRequest :=
  { r with flags := flags }

/-- The configuration setter calls available on an `SmpRequest`. -/
inductive SmpOp where
  | setFlags (f : Nat)
  | withFlags (f : Nat)

def SmpRequest.applyOp (r : SmpRequest) : SmpOp → SmpRequest
  | SmpOp.setFlags f => r.set_flags f
  | SmpOp.withFlags f => r.with_flags f

def SmpRequest.applyOps (r : SmpRequest) (ops : List SmpOp) : SmpRequest :=
  ops.foldl SmpRequest.applyOp r

/-- Address of the private `dummy` diverging handler installed by
`EntryPointRequest::with_revision`; function pointers are modelled as
addresses and the dummy handler is assigned address 0. -/
def entryPointDummyAddr : Nat := 0

/-- Embedding of `request::EntryPointRequest` (`src/src/request.rs` lines
467-503); the `extern "C" fn() -> !` pointer is modelled as an address. -/
structure EntryPointRequest where
  id : List Nat
  revision : Nat
  response : Response EntryPointResponse
  entry_point : Nat

/-- Embedding of `EntryPointRequest::with_revision`. -/
def EntryPointRequest.with_revision (revision : Nat) : EntryPointRequest :=
  { id := limineMagic 0x13d86c035a1cd3e1 0x2b0caa89d8f3026a
    revision := revision
    response := Response.none
    entry_point := entryPointDummyAddr }

/-- Embedding of `EntryPointRequest::new` (latest revision 0). -/
def EntryPointRequest.new : EntryPointRequest :=
  EntryPointRequest.with_revision 0

/-- Embedding of `EntryPointRequest::get_response`. -/
def EntryPointRequest.get_response (r : EntryPointRequest) :
    Option EntryPointResponse :=
  r.response.get

def EntryPointRequest.set_entry_point (r : EntryPointRequest)
    (entry_point : Nat) : EntryPointRequest :=
  { r with entry_point := entry_point }

def EntryPointRequest.with_entry_point (r : EntryPointRequest)
    (entry_point : Nat) : EntryPointRequest :=
  { r with entry_point := entry_point }

/-- The configuration setter calls available on an `EntryPointRequest`. -/
inductive EntryPointOp where
  | setEntryPoint (e : Nat)
  | withEntryPoint (e : Nat)

def EntryPointRequest.applyOp (r : EntryPointRequest) :
    EntryPointOp → EntryPointRequest
  | EntryPointOp.setEntryPoint e => r.set_entry_point e
  | EntryPointOp.withEntryPoint e => r.with_entry_point e

def EntryPointRequest.applyOps (r : EntryPointRequest)
    (ops : List EntryPointOp) : EntryPointRequest :=
  ops.foldl EntryPointRequest.applyOp r

/-- Embedding of `request::ModuleRequest` (`src/src/request.rs` lines
563-619); the `*const *const InternalModule` pointer is modelled as an
address (0 for null). -/
structure ModuleRequest where
  id : List Nat
  revision : Nat
  response : Response ModuleResponse
  internal_module_ct : Nat
  internal_modules_base : Nat

/-- Embedding of `ModuleRequest::with_revision`. -/
def ModuleRequest.with_revision (revision : Nat) : ModuleRequest :=
  { id := limineMagic 0x3e7e279702be32af 0xca1c4f3bd1280cee
    revision := revision
    response := Response.none
    internal_module_ct := 0
    internal_modules_base := 0 }

/-- Embedding of `ModuleRequest::new` (latest revision 1). -/
def ModuleRequest.new : ModuleRequest :=
  ModuleRequest.with_revision 1

/-- Embedding of `ModuleRequest::get_response`. -/
def ModuleRequest.get_response (r : ModuleRequest) : Option ModuleResponse :=
  r.response.get

/-- Embedding of `ModuleRequest::set_internal_modules`: stores the length and
base pointer of the given static slice of modules. -/
def ModuleRequest.set_internal_modules (r : ModuleRequest)
    (base len : Nat) : ModuleRequest :=
  { r with internal_module_ct := len, internal_modules_base := base }

/-- Embedding of `ModuleRequest::with_internal_modules`. -/
def ModuleRequest.with_internal_modules (r : ModuleRequest)
    (base len : Nat) : ModuleRequest :=
  { r with internal_module_ct := len, internal_modules_base := base }

/-- Embedding of `ModuleRequest::internal_modules`:
`from_raw_parts(self.internal_modules, self.internal_module_ct)`. -/
def ModuleRequest.internal_modules (r : ModuleRequest)
    (mem : Nat → Option InternalModule) : List (Option InternalModule) :=
  sliceFromRawParts mem r.internal_modules_base r.internal_module_ct

/-- The configuration setter calls available on a `ModuleRequest`. -/
inductive ModuleOp where
  | setInternalModules (base len : Nat)
  | withInternalModules (base len : Nat)

def ModuleRequest.applyOp (r : ModuleRequest) : ModuleOp → ModuleRequest
  | ModuleOp.setInternalModules base len => r.set_internal_modules base len
  | ModuleOp.withInternalModules base len => r.with_internal_modules base len

def ModuleRequest.applyOps (r : ModuleRequest) (ops : List ModuleOp) :
    ModuleRequest :=
  ops.foldl ModuleRequest.applyOp r

/-- Embedding of `request::BootloaderInfoRequest` (`src/src/request.rs`). -/
structure BootloaderInfoRequest where
  id : List Nat
  revision : Nat
  response : Response BootloaderInfoResponse

def BootloaderInfoRequest.with_revision (revision : Nat) :
    BootloaderInfoRequest :=
  { id := limineMagic 0xf55038d8e2a1202f 0x279426fcf5f59740
    revision := revision
    response := Response.none }

def BootloaderInfoRequest.new : BootloaderInfoRequest :=
  BootloaderInfoRequest.with_revision 0

def BootloaderInfoRequest.get_response (r : BootloaderInfoRequest) :
    Option BootloaderInfoResponse :=
  r.response.get

/-- Embedding of `request::FirmwareTypeRequest` (`src/src/request.rs`). -/
structure FirmwareTypeRequest where
  id : List Nat
  revision : Nat
  response : Response FirmwareTypeResponse

def FirmwareTypeRequest.with_revision (revision : Nat) :
    FirmwareTypeRequest :=
  { id := limineMagic 0x8c2f75d90bef28a8 0x7045a4688eac00c3
    revision := revision
    response := Response.none }

def FirmwareTypeRequest.new : FirmwareTypeRequest :=
  FirmwareTypeRequest.with_revision 0

def FirmwareTypeRequest.get_response (r : FirmwareTypeRequest) :
    Option FirmwareTypeResponse :=
  r.response.get

/-- Embedding of `request::HhdmRequest` (`src/src/request.rs`). -/
structure HhdmRequest where
  id : List Nat
  revision : Nat
  response : Response HhdmResponse

def HhdmRequest.with_revision (revision : Nat) : HhdmRequest :=
  { id := limineMagic 0x48dcf1cb8ad2b852 0x63984e959a98244b
    revision := revision
    response := Response.none }

def HhdmRequest.new : HhdmRequest :=
  HhdmRequest.with_revision 0

def HhdmRequest.get_response (r : HhdmRequest) : Option HhdmResponse :=
  r.response.get

/-- Embedding of `request::FramebufferRequest` (`src/src/request.rs`). -/
structure FramebufferRequest where
  id : List Nat
  revision : Nat
  response : Response FramebufferResponse

def FramebufferRequest.with_revision (revision : Nat) : FramebufferRequest :=
  { id := limineMagic 0x9d5827dcd881dd75 0xa3148604f6fab11b
    revision := revision
    response := Response.none }

def FramebufferRequest.new : FramebufferRequest :=
  FramebufferRequest.with_revision 0

def FramebufferRequest.get_response (r : FramebufferRequest) :
    Option FramebufferResponse :=
  r.response.get

/-- Embedding of `request::MemoryMapRequest` (`src/src/request.rs`). -/
structure MemoryMapRequest where
  id : List Nat
  revision : Nat
  response : Response MemoryMapResponse

def MemoryMapRequest.with_revision (revision : Nat) : MemoryMapRequest :=
  { id := limineMagic 0x67cf3d9d378a806f 0xe304acdfc50c3c62
    revision := revision
    response := Response.none }

def MemoryMapRequest.new : MemoryMapRequest :=
  MemoryMapRequest.with_revision 0

def MemoryMapRequest.get_response (r : MemoryMapRequest) :
    Option MemoryMapResponse :=
  r.response.get

/-- Embedding of `request::KernelFileRequest` (`src/src/request.rs`). -/
structure KernelFileRequest where
  id : List Nat
  revision : Nat
  response : Response KernelFileResponse

def KernelFileRequest.with_revision (revision : Nat) : KernelFileRequest :=
  { id := limineMagic 0xad97e90e83f1ed67 0x31eb5d1c5ff23b69
    revision := revision
    response := Response.none }

def KernelFileRequest.new : KernelFileRequest :=
  KernelFileRequest.with_revision 0

def KernelFileRequest.get_response (r : KernelFileRequest) :
    Option KernelFileResponse :=
  r.response.get

/-- Embedding of `request::RsdpRequest` (`src/src/request.rs`). -/
structure RsdpRequest where
  id : List Nat
  revision : Nat
  response : Response RsdpResponse

def RsdpRequest.with_revision (revision : Nat) : RsdpRequest :=
  { id := limineMagic 0xc5e77b6b397e7b43 0x27637845accdcf3c
    revision := revision
    response := Response.none }

def RsdpRequest.new : RsdpRequest :=
  RsdpRequest.with_revision 0

def RsdpRequest.get_response (r : RsdpRequest) : Option RsdpResponse :=
  r.response.get

/-- Embedding of `request::SmbiosRequest` (`src/src/request.rs`). -/
structure SmbiosRequest where
  id : List Nat
  revision : Nat
  response : Response SmbiosResponse

def SmbiosRequest.with_revision (revision : Nat) : SmbiosRequest :=
  { id := limineMagic 0x9e9046f11e095391 0xaa4a520fefbde5ee
    revision := revision
    response := Response.none }

def SmbiosRequest.new : SmbiosRequest :=
  SmbiosRequest.with_revision 0

def SmbiosRequest.get_response (r : SmbiosRequest) : Option SmbiosResponse :=
  r.response.get

/-- Embedding of `request::EfiSystemTableRequest` (`src/src/request.rs`). -/
structure EfiSystemTableRequest where
  id : List Nat
  revision : Nat
  response : Response EfiSystemTableResponse

def EfiSystemTableRequest.with_revision (revision : Nat) :
    EfiSystemTableRequest :=
  { id := limineMagic 0x5ceba5163eaaf6d6 0x0a6981610cf65fcc
    revision := revision
    response := Response.none }

def EfiSystemTableRequest.new : EfiSystemTableRequest :=
  EfiSystemTableRequest.with_revision 0

def EfiSystemTableRequest.get_response (r : EfiSystemTableRequest) :
    Option EfiSystemTableResponse :=
  r.response.get

/-- Embedding of `request::EfiMemoryMapRequest` (`src/src/request.rs`). -/
structure EfiMemoryMapRequest where
  id : List Nat
  revision : Nat
  response : Response EfiMemoryMapResponse

def EfiMemoryMapRequest.with_revision (revision : Nat) :
    EfiMemoryMapRequest :=
  { id := limineMagic 0x7df62a431d6872d5 0xa4fcdfb3e57306c8
    revision := revision
    response := Response.none }

def EfiMemoryMapRequest.new : EfiMemoryMapRequest :=
  EfiMemoryMapRequest.with_revision 0

def EfiMemoryMapRequest.get_response (r : EfiMemoryMapRequest) :
    Option EfiMemoryMapResponse :=
  r.response.get

/-- Embedding of `request::BootTimeRequest` (`src/src/request.rs`). -/
structure BootTimeRequest where
  id : List Nat
  revision : Nat
  response : Response BootTimeResponse

def BootTimeRequest.with_revision (revision : Nat) : BootTimeRequest :=
  { id := limineMagic 0x502746e184c088aa 0xfbc5ec83e6327893
    revision := revision
    response := Response.none }

def BootTimeRequest.new : BootTimeRequest :=
  BootTimeRequest.with_revision 0

def BootTimeRequest.get_response (r : BootTimeRequest) :
    Option BootTimeResponse :=
  r.response.get

/-- Embedding of `request::KernelAddressRequest` (`src/src/request.rs`). -/
structure KernelAddressRequest where
  id : List Nat
  revision : Nat
  response : Response KernelAddressResponse

def KernelAddressRequest.with_revision (revision : Nat) :
    KernelAddressRequest :=
  { id := limineMagic 0x71ba76863cc55f63 0xb2644a48c516a487
    revision := revision
    response := Response.none }

def KernelAddressRequest.new : KernelAddressRequest :=
  KernelAddressRequest.with_revision 0

def KernelAddressRequest.get_response (r : KernelAddressRequest) :
    Option KernelAddressResponse :=
  r.response.get

/-- Embedding of `request::DeviceTreeBlobRequest` (`src/src/request.rs`). -/
structure DeviceTreeBlobRequest where
  id : List Nat
  revision : Nat
  response : Response DeviceTreeBlobResponse

def DeviceTreeBlobRequest.with_revision (revision : Nat) :
    DeviceTreeBlobRequest :=
  { id := limineMagic 0xb40ddb48fb54bac7 0x545081493f81ffb7
    revision := revision
    response := Response.none }

def DeviceTreeBlobRequest.new : DeviceTreeBlobRequest :=
  DeviceTreeBlobRequest.with_revision 0

def DeviceTreeBlobRequest.get_response (r : DeviceTreeBlobRequest) :
    Option DeviceTreeBlobResponse :=
  r.response.get

theorem stackSizeOp_preserves_id (r : StackSizeRequest)
    (op : StackSizeOp) : (r.applyOp op).id = r.id := by
  cases op <;> rfl

theorem stackSizeOps_preserve_id (ops : List StackSizeOp)
    (r : StackSizeRequest) : (r.applyOps ops).id = r.id := by
  induction ops generalizing r with
  | nil => rfl
  | cons op rest ih =>
    calc (r.applyOps (op :: rest)).id
        = ((r.applyOp op).applyOps rest).id := by
          simp [StackSizeRequest.applyOps]
      _ = (r.applyOp op).id := ih _
      _ = r.id := stackSizeOp_preserves_id r op

theorem pagingModeOp_preserves_id (r : PagingModeRequest)
    (op : PagingModeOp) : (r.applyOp op).id = r.id := by
  cases op <;> rfl

theorem pagingModeOps_preserve_id (ops : List PagingModeOp)
    (r : PagingModeRequest) : (r.applyOps ops).id = r.id := by
  induction ops generalizing r with
  | nil => rfl
  | cons op rest ih =>
    calc (r.applyOps (op :: rest)).id
        = ((r.applyOp op).applyOps rest).id := by
          simp [PagingModeRequest.applyOps]
      _ = (r.applyOp op).id := ih _
      _ = r.id := pagingModeOp_preserves_id r op

theorem smpOp_preserves_id (r : SmpRequest) (op : SmpOp) :
    (r.applyOp op).id = r.id := by
  cases op <;> rfl

theorem smpOps_preserve_id (ops : List SmpOp) (r : SmpRequest) :
    (r.applyOps ops).id = r.id := by
  induction ops generalizing r with
  | nil => rfl
  | cons op rest ih =>
    calc (r.applyOps (op :: rest)).id
        = ((r.applyOp op).applyOps rest).id := by simp [SmpRequest.applyOps]
      _ = (r.applyOp op).id := ih _
      _ = r.id := smpOp_preserves_id r op

theorem entryPointOp_preserves_id (r : EntryPointRequest)
    (op : EntryPointOp) : (r.applyOp op).id = r.id := by
  cases op <;> rfl

theorem entryPointOps_preserve_id (ops : List EntryPointOp)
    (r : EntryPointRequest) : (r.applyOps ops).id = r.id := by
  induction ops generalizing r with
  | nil => rfl
  | cons op rest ih =>
    calc (r.applyOps (op :: rest)).id
        = ((r.applyOp op).applyOps rest).id := by
          simp [EntryPointRequest.applyOps]
      _ = (r.applyOp op).id := ih _
      _ = r.id := entryPointOp_preserves_id r op

theorem moduleOp_preserves_id (r : ModuleRequest) (op : ModuleOp) :
    (r.applyOp op).id = r.id := by
  cases op <;> rfl

theorem moduleOps_preserve_id (ops : List ModuleOp) (r : ModuleRequest) :
    (r.applyOps ops).id = r.id := by
  induction ops generalizing r with
  | nil => rfl
  | cons op rest ih =>
    calc (r.applyOps (op :: rest)).id
        = ((r.applyOp op).applyOps rest).id := by
          simp [ModuleRequest.applyOps]
      _ = (r.applyOp op).id := ih _
      _ = r.id := moduleOp_preserves_id r op

/-- C1: for every request type, constructing a request via `new()` or
`with_revision(r)` for any revision `r`, followed by any sequence of
configuration setter calls (both the consuming `with_*` and the in-place
`set_*` variants), yields a structure whose first four 64-bit identifier
words are exactly, in order, the fixed common magic pair
`[0xc7b1dd30df4c8b88, 0x0a82e883a194f07b]` followed by the request type's
two feature-specific magic words; no setter, and in the functional embedding
no operation at all, ever changes these four words. -/
theorem c1_request_id_is_common_plus_feature_magic :
    (∀ (rv : Nat) (ops : List StackSizeOp),
      ((StackSizeRequest.with_revision rv).applyOps ops).id
        = [0xc7b1dd30df4c8b88, 0x0a82e883a194f07b, 0x224ef0460a8e8926,
           0xe1cb0fc25f46ea3d])
    ∧ (∀ ops : List StackSizeOp, (StackSizeRequest.new.applyOps ops).id
        = [0xc7b1dd30df4c8b88, 0x0a82e883a194f07b, 0x224ef0460a8e8926,
           0xe1cb0fc25f46ea3d])
    ∧ (∀ (rv : Nat) (ops : List PagingModeOp),
      ((PagingModeRequest.with_revision rv).applyOps ops).id
        = [0xc7b1dd30df4c8b88, 0x0a82e883a194f07b, 0x95c1a0edab0944cb,
           0xa4e5cb3842f7488a])
    ∧ (∀ ops : List PagingModeOp, (PagingModeRequest.new.applyOps ops).id
        = [0xc7b1dd30df4c8b88, 0x0a82e883a194f07b, 0x95c1a0edab0944cb,
           0xa4e5cb3842f7488a])
    ∧ (∀ (rv : Nat) (ops : List SmpOp),
      ((SmpRequest.with_revision rv).applyOps ops).id
        = [0xc7b1dd30df4c8b88, 0x0a82e883a194f07b, 0x95a67b819a1b857e,
           0xa0b61b723b6a73e0])
    ∧ (∀ ops : List SmpOp, (SmpRequest.new.applyOps ops).id
        = [0xc7b1dd30df4c8b88, 0x0a82e883a194f07b, 0x95a67b819a1b857e,
           0xa0b61b723b6a73e0])
    ∧ (∀ (rv : Nat) (ops : List EntryPointOp),
      ((EntryPointRequest.with_revision rv).applyOps ops).id
        = [0xc7b1dd30df4c8b88, 0x0a82e883a194f07b, 0x13d86c035a1cd3e1,
           0x2b0caa89d8f3026a])
    ∧ (∀ ops : List EntryPointOp, (EntryPointRequest.new.applyOps ops).id
        = [0xc7b1dd30df4c8b88, 0x0a82e883a194f07b, 0x13d86c035a1cd3e1,
           0x2b0caa89d8f3026a])
    ∧ (∀ (rv : Nat) (ops : List ModuleOp),
      ((ModuleRequest.with_revision rv).applyOps ops).id
        = [0xc7b1dd30df4c8b88, 0x0a82e883a194f07b, 0x3e7e279702be32af,
           0xca1c4f3bd1280cee])
    ∧ (∀ ops : List ModuleOp, (ModuleRequest.new.applyOps ops).id
        = [0xc7b1dd30df4c8b88, 0x0a82e883a194f07b, 0x3e7e279702be32af,
           0xca1c4f3bd1280cee])
    ∧ (∀ rv : Nat, (BootloaderInfoRequest.with_revision rv).id
        = [0xc7b1dd30df4c8b88, 0x0a82e883a194f07b, 0xf55038d8e2a1202f,
           0x279426fcf5f59740])
    ∧ BootloaderInfoRequest.new.id
        = [0xc7b1dd30df4c8b88, 0x0a82e883a194f07b, 0xf55038d8e2a1202f,
           0x279426fcf5f59740]
    ∧ (∀ rv : Nat, (FirmwareTypeRequest.with_revision rv).id
        = [0xc7b1dd30df4c8b88, 0x0a82e883a194f07b, 0x8c2f75d90bef28a8,
           0x7045a4688eac00c3])
    ∧ FirmwareTypeRequest.new.id
        = [0xc7b1dd30df4c8b88, 0x0a82e883a194f07b, 0x8c2f75d90bef28a8,
           0x7045a4688eac00c3]
    ∧ (∀ rv : Nat, (HhdmRequest.with_revision rv).id
        = [0xc7b1dd30df4c8b88, 0x0a82e883a194f07b, 0x48dcf1cb8ad2b852,
           0x63984e959a98244b])
    ∧ HhdmRequest.new.id
        = [0xc7b1dd30df4c8b88, 0x0a82e883a194f07b, 0x48dcf1cb8ad2b852,
           0x63984e959a98244b]
    ∧ (∀ rv : Nat, (FramebufferRequest.with_revision rv).id
        = [0xc7b1dd30df4c8b88, 0x0a82e883a194f07b, 0x9d5827dcd881dd75,
           0xa3148604f6fab11b])
    ∧ FramebufferRequest.new.id
        = [0xc7b1dd30df4c8b88, 0x0a82e883a194f07b, 0x9d5827dcd881dd75,
           0xa3148604f6fab11b]
    ∧ (∀ rv : Nat, (MemoryMapRequest.with_revision rv).id
        = [0xc7b1dd30df4c8b88, 0x0a82e883a194f07b, 0x67cf3d9d378a806f,
           0xe304acdfc50c3c62])
    ∧ MemoryMapRequest.new.id
        = [0xc7b1dd30df4c8b88, 0x0a82e883a194f07b, 0x67cf3d9d378a806f,
           0xe304acdfc50c3c62]
    ∧ (∀ rv : Nat, (KernelFileRequest.with_revision rv).id
        = [0xc7b1dd30df4c8b88, 0x0a82e883a194f07b, 0xad97e90e83f1ed67,
           0x31eb5d1c5ff23b69])
    ∧ KernelFileRequest.new.id
        = [0xc7b1dd30df4c8b88, 0x0a82e883a194f07b, 0xad97e90e83f1ed67,
           0x31eb5d1c5ff23b69]
    ∧ (∀ rv : Nat, (RsdpRequest.with_revision rv).id
        = [0xc7b1dd30df4c8b88, 0x0a82e883a194f07b, 0xc5e77b6b397e7b43,
           0x27637845accdcf3c])
    ∧ RsdpRequest.new.id
        = [0xc7b1dd30df4c8b88, 0x0a82e883a194f07b, 0xc5e77b6b397e7b43,
           0x27637845accdcf3c]
    ∧ (∀ rv : Nat, (SmbiosRequest.with_revision rv).id
        = [0xc7b1dd30df4c8b88, 0x0a82e883a194f07b, 0x9e9046f11e095391,
           0xaa4a520fefbde5ee])
    ∧ SmbiosRequest.new.id
        = [0xc7b1dd30df4c8b88, 0x0a82e883a194f07b, 0x9e9046f11e095391,
           0xaa4a520fefbde5ee]
    ∧ (∀ rv : Nat, (EfiSystemTableRequest.with_revision rv).id
        = [0xc7b1dd30df4c8b88, 0x0a82e883a194f07b, 0x5ceba5163eaaf6d6,
           0x0a6981610cf65fcc])
    ∧ EfiSystemTableRequest.new.id
        = [0xc7b1dd30df4c8b88, 0x0a82e883a194f07b, 0x5ceba5163eaaf6d6,
           0x0a6981610cf65fcc]
    ∧ (∀ rv : Nat, (EfiMemoryMapRequest.with_revision rv).id
        = [0xc7b1dd30df4c8b88, 0x0a82e883a194f07b, 0x7df62a431d6872d5,
           0xa4fcdfb3e57306c8])
    ∧ EfiMemoryMapRequest.new.id
        = [0xc7b1dd30df4c8b88, 0x0a82e883a194f07b, 0x7df62a431d6872d5,
           0xa4fcdfb3e57306c8]
    ∧ (∀ rv : Nat, (BootTimeRequest.with_revision rv).id
        = [0xc7b1dd30df4c8b88, 0x0a82e883a194f07b, 0x502746e184c088aa,
           0xfbc5ec83e6327893])
    ∧ BootTimeRequest.new.id
        = [0xc7b1dd30df4c8b88, 0x0a82e883a194f07b, 0x502746e184c088aa,
           0xfbc5ec83e6327893]
    ∧ (∀ rv : Nat, (KernelAddressRequest.with_revision rv).id
        = [0xc7b1dd30df4c8b88, 0x0a82e883a194f07b, 0x71ba76863cc55f63,
           0xb2644a48c516a487])
    ∧ KernelAddressRequest.new.id
        = [0xc7b1dd30df4c8b88, 0x0a82e883a194f07b, 0x71ba76863cc55f63,
           0xb2644a48c516a487]
    ∧ (∀ rv : Nat, (DeviceTreeBlobRequest.with_revision rv).id
        = [0xc7b1dd30df4c8b88, 0x0a82e883a194f07b, 0xb40ddb48fb54bac7,
           0x545081493f81ffb7])
    ∧ DeviceTreeBlobRequest.new.id
        = [0xc7b1dd30df4c8b88, 0x0a82e883a194f07b, 0xb40ddb48fb54bac7,
           0x545081493f81ffb7] := by
  repeat' apply And.intro
  all_goals intros
  all_goals
    first
    | rfl
    | (rw [stackSizeOps_preserve_id]; rfl)
    | (rw [pagingModeOps_preserve_id]; rfl)
    | (rw [smpOps_preserve_id]; rfl)
    | (rw [entryPointOps_preserve_id]; rfl)
    | (rw [moduleOps_preserve_id]; rfl)

/-- C2: for every request type, a request freshly constructed by `new()` or
`with_revision(r)` (for any `r`) has `get_response()` return absent, because
the response slot is initialised to null; and `get_response()` returns a
reference exactly when the response slot has been set non-null: on any
request value whose slot holds a non-null pointer to a response,
`get_response()` returns that response. -/
theorem c2_fresh_requests_have_no_response :
    (∀ rv : Nat, (BootloaderInfoRequest.with_revision rv).get_response
        = Option.none)
    ∧ BootloaderInfoRequest.new.get_response = Option.none
    ∧ (∀ (i : List Nat) (rv : Nat) (v : BootloaderInfoResponse),
        (BootloaderInfoRequest.mk i rv ⟨some v⟩).get_response = some v)
    ∧ (∀ rv : Nat, (FirmwareTypeRequest.with_revision rv).get_response
        = Option.none)
    ∧ FirmwareTypeRequest.new.get_response = Option.none
    ∧ (∀ (i : List Nat) (rv : Nat) (v : FirmwareTypeResponse),
        (FirmwareTypeRequest.mk i rv ⟨some v⟩).get_response = some v)
    ∧ (∀ rv : Nat, (StackSizeRequest.with_revision rv).get_response
        = Option.none)
    ∧ StackSizeRequest.new.get_response = Option.none
    ∧ (∀ (i : List Nat) (rv sz : Nat) (v : StackSizeResponse),
        (StackSizeRequest.mk i rv ⟨some v⟩ sz).get_response = some v)
    ∧ (∀ rv : Nat, (HhdmRequest.with_revision rv).get_response = Option.none)
    ∧ HhdmRequest.new.get_response = Option.none
    ∧ (∀ (i : List Nat) (rv : Nat) (v : HhdmResponse),
        (HhdmRequest.mk i rv ⟨some v⟩).get_response = some v)
    ∧ (∀ rv : Nat, (FramebufferRequest.with_revision rv).get_response
        = Option.none)
    ∧ FramebufferRequest.new.get_response = Option.none
    ∧ (∀ (i : List Nat) (rv : Nat) (v : FramebufferResponse),
        (FramebufferRequest.mk i rv ⟨some v⟩).get_response = some v)
    ∧ (∀ rv : Nat, (PagingModeRequest.with_revision rv).get_response
        = Option.none)
    ∧ PagingModeRequest.new.get_response = Option.none
    ∧ (∀ (i : List Nat) (rv : Nat) (m mx mn : Mode)
        (v : PagingModeResponse),
        (PagingModeRequest.mk i rv ⟨some v⟩ m mx mn).get_response = some v)
    ∧ (∀ rv : Nat, (SmpRequest.with_revision rv).get_response = Option.none)
    ∧ SmpRequest.new.get_response = Option.none
    ∧ (∀ (i : List Nat) (rv fl : Nat) (v : SmpResponse),
        (SmpRequest.mk i rv ⟨some v⟩ fl).get_response = some v)
    ∧ (∀ rv : Nat, (MemoryMapRequest.with_revision rv).get_response
        = Option.none)
    ∧ MemoryMapRequest.new.get_response = Option.none
    ∧ (∀ (i : List Nat) (rv : Nat) (v : MemoryMapResponse),
        (MemoryMapRequest.mk i rv ⟨some v⟩).get_response = some v)
    ∧ (∀ rv : Nat, (EntryPointRequest.with_revision rv).get_response
        = Option.none)
    ∧ EntryPointRequest.new.get_response = Option.none
    ∧ (∀ (i : List Nat) (rv ep : Nat) (v : EntryPointResponse),
        (EntryPointRequest.mk i rv ⟨some v⟩ ep).get_response = some v)
    ∧ (∀ rv : Nat, (KernelFileRequest.with_revision rv).get_response
        = Option.none)
    ∧ KernelFileRequest.new.get_response = Option.none
    ∧ (∀ (i : List Nat) (rv : Nat) (v : KernelFileResponse),
        (KernelFileRequest.mk i rv ⟨some v⟩).get_response = some v)
    ∧ (∀ rv : Nat, (ModuleRequest.with_revision rv).get_response
        = Option.none)
    ∧ ModuleRequest.new.get_response = Option.none
    ∧ (∀ (i : List Nat) (rv ct mb : Nat) (v : ModuleResponse),
        (ModuleRequest.mk i rv ⟨some v⟩ ct mb).get_response = some v)
    ∧ (∀ rv : Nat, (RsdpRequest.with_revision rv).get_response = Option.none)
    ∧ RsdpRequest.new.get_response = Option.none
    ∧ (∀ (i : List Nat) (rv : Nat) (v : RsdpResponse),
        (RsdpRequest.mk i rv ⟨some v⟩).get_response = some v)
    ∧ (∀ rv : Nat, (SmbiosRequest.with_revision rv).get_response
        = Option.none)
    ∧ SmbiosRequest.new.get_response = Option.none
    ∧ (∀ (i : List Nat) (rv : Nat) (v : SmbiosResponse),
        (SmbiosRequest.mk i rv ⟨some v⟩).get_response = some v)
    ∧ (∀ rv : Nat, (EfiSystemTableRequest.with_revision rv).get_response
        = Option.none)
    ∧ EfiSystemTableRequest.new.get_response = Option.none
    ∧ (∀ (i : List Nat) (rv : Nat) (v : EfiSystemTableResponse),
        (EfiSystemTableRequest.mk i rv ⟨some v⟩).get_response = some v)
    ∧ (∀ rv : Nat, (EfiMemoryMapRequest.with_revision rv).get_response
        = Option.none)
    ∧ EfiMemoryMapRequest.new.get_response = Option.none
    ∧ (∀ (i : List Nat) (rv : Nat) (v : EfiMemoryMapResponse),
        (EfiMemoryMapRequest.mk i rv ⟨some v⟩).get_response = some v)
    ∧ (∀ rv : Nat, (BootTimeRequest.with_revision rv).get_response
        = Option.none)
    ∧ BootTimeRequest.new.get_response = Option.none
    ∧ (∀ (i : List Nat) (rv : Nat) (v : BootTimeResponse),
        (BootTimeRequest.mk i rv ⟨some v⟩).get_response = some v)
    ∧ (∀ rv : Nat, (KernelAddressRequest.with_revision rv).get_response
        = Option.none)
    ∧ KernelAddressRequest.new.get_response = Option.none
    ∧ (∀ (i : List Nat) (rv : Nat) (v : KernelAddressResponse),
        (KernelAddressRequest.mk i rv ⟨some v⟩).get_response = some v)
    ∧ (∀ rv : Nat, (DeviceTreeBlobRequest.with_revision rv).get_response
        = Option.none)
    ∧ DeviceTreeBlobRequest.new.get_response = Option.none
    ∧ (∀ (i : List Nat) (rv : Nat) (v : DeviceTreeBlobResponse),
        (DeviceTreeBlobRequest.mk i rv ⟨some v⟩).get_response = some v) := by
  repeat' apply And.intro
  all_goals intros
  all_goals rfl

/-- C4: for every counted-array response accessor (memory-map entries,
modules, framebuffers, CPUs), given an observed response with count 0 the
produced slice is empty for every base-pointer value and every state of the
foreign memory (so the base pointer is never dereferenced), and in general
the produced slice's length equals the count field of the same observed
response. -/
theorem c4_counted_array_accessors_safe :
    (∀ (rv base : Nat) (mem : Nat → Option Entry),
        (MemoryMapResponse.mk rv 0 base).entries mem = [])
    ∧ (∀ (rv base : Nat) (mem : Nat → Option Entry),
        (MemoryMapResponse.mk rv 0 base).entries_mut mem = [])
    ∧ (∀ (r : MemoryMapResponse) (mem : Nat → Option Entry),
        (r.entries mem).length = r.entry_ct
        ∧ (r.entries_mut mem).length = r.entry_ct)
    ∧ (∀ (rv base : Nat) (mem : Nat → Option File),
        (ModuleResponse.mk rv 0 base).modules mem = [])
    ∧ (∀ (r : ModuleResponse) (mem : Nat → Option File),
        (r.modules mem).length = r.module_ct)
    ∧ (∀ (rv base : Nat) (mem : Nat → Option RawFramebuffer),
        (FramebufferResponse.mk rv 0 base).framebuffers mem = [])
    ∧ (∀ (r : FramebufferResponse) (mem : Nat → Option RawFramebuffer),
        (r.framebuffers mem).length = r.framebuffer_ct)
    ∧ (∀ (rv fl bsp base : Nat) (mem : Nat → Option Cpu),
        (MpResponse.mk rv fl bsp 0 base).cpus mem = []
        ∧ (MpResponse.mk rv fl bsp 0 base).cpus_mut mem = [])
    ∧ (∀ (r : MpResponse) (mem : Nat → Option Cpu),
        (r.cpus mem).length = r.cpu_ct
        ∧ (r.cpus_mut mem).length = r.cpu_ct) := by
  repeat' apply And.intro
  all_goals intros
  all_goals
    simp [MemoryMapResponse.entries, MemoryMapResponse.entries_mut,
      ModuleResponse.modules, FramebufferResponse.framebuffers,
      MpResponse.cpus, MpResponse.cpus_mut, sliceFromRawParts_zero,
      sliceFromRawParts_length]

/-- C7: `Framebuffer::modes` returns absent exactly when the revision
recorded from the owning response is 0 and returns the video-mode slice for
every revision at least 1; moreover every framebuffer produced by
`FramebufferResponse::framebuffers` carries exactly the revision of the
response that produced it. -/
theorem c7_modes_gated_by_response_revision :
    (∀ (rv : Nat) (fb : RawFramebuffer) (mem : Nat → Option VideoMode),
        ((Framebuffer.new rv fb).modes mem = Option.none ↔ rv = 0)
        ∧ (((Framebuffer.new rv fb).modes mem).isSome ↔ 1 ≤ rv))
    ∧ (∀ (r : FramebufferResponse) (mem : Nat → Option RawFramebuffer),
        (r.framebuffers mem).all
          (fun ofb => ofb.all (fun fb => fb.revision == r.revision))
          = true) := by
  constructor
  · intro rv fb mem
    cases rv with
    | zero => simp [Framebuffer.new, Framebuffer.modes]
    | succ n =>
      simp [Framebuffer.new, Framebuffer.modes, Nat.succ_le_succ]
  · intro r mem
    simp only [FramebufferResponse.framebuffers, List.all_eq_true]
    intro x hx
    rcases List.mem_map.1 hx with ⟨ofb, _, rfl⟩
    cases ofb with
    | none => rfl
    | some fb => simp [Framebuffer.new]

/-- C8: for every request type with configuration fields, applying any chain
of setters (consuming `with_*` or in-place `set_*`) and reading each field
back via its accessor returns exactly the values set; the two setter
variants produce identical structures, and setters for distinct fields
commute, so the result is independent of call order. -/
theorem c8_setter_roundtrip_and_commutation :
    (∀ (r : StackSizeRequest) (v : Nat),
        (r.with_size v).size = v
        ∧ (r.set_size v).size = v
        ∧ r.set_size v = r.with_size v)
    ∧ (∀ (r : PagingModeRequest) (a b c : Mode),
        (((r.with_mode a).with_max_mode b).with_min_mode c).mode = a
        ∧ (((r.with_mode a).with_max_mode b).with_min_mode c).max_mode = b
        ∧ (((r.with_mode a).with_max_mode b).with_min_mode c).min_mode = c)
    ∧ (∀ (r : PagingModeRequest) (a b : Mode),
        (r.with_mode a).with_max_mode b = (r.with_max_mode b).with_mode a
        ∧ (r.with_mode a).with_min_mode b = (r.with_min_mode b).with_mode a
        ∧ (r.with_max_mode a).with_min_mode b
            = (r.with_min_mode b).with_max_mode a)
    ∧ (∀ (r : PagingModeRequest) (m : Mode),
        r.set_mode m = r.with_mode m
        ∧ r.set_max_mode m = r.with_max_mode m
        ∧ r.set_min_mode m = r.with_min_mode m)
    ∧ (∀ (r : SmpRequest) (f : Nat),
        (r.with_flags f).flags = f ∧ r.set_flags f = r.with_flags f)
    ∧ (∀ (r : EntryPointRequest) (e : Nat),
        (r.with_entry_point e).entry_point = e
        ∧ r.set_entry_point e = r.with_entry_point e)
    ∧ (∀ (r : ModuleRequest) (base len : Nat),
        (r.with_internal_modules base len).internal_module_ct = len
        ∧ (r.with_internal_modules base len).internal_modules_base = base
        ∧ r.set_internal_modules base len = r.with_internal_modules base len
        ∧ ∀ mem : Nat → Option InternalModule,
            ((r.with_internal_modules base len).internal_modules mem).length
              = len) := by
  refine ⟨fun r v => ⟨rfl, rfl, rfl⟩, fun r a b c => ⟨rfl, rfl, rfl⟩,
    fun r a b => ⟨rfl, rfl, rfl⟩, fun r m => ⟨rfl, rfl, rfl⟩,
    fun r f => ⟨rfl, rfl⟩, fun r e => ⟨rfl, rfl⟩,
    fun r base len => ⟨rfl, rfl, rfl, fun mem => ?_⟩⟩
  simp [ModuleRequest.internal_modules, ModuleRequest.with_internal_modules,
    sliceFromRawParts_length]

/-- C10: `DateAtBootResponse::timestamp` (and the deprecated `boot_time`)
returns a `Duration` of exactly the raw `i64` timestamp reinterpreted as an
unsigned 64-bit value in seconds; in particular, for every negative raw
timestamp `t` (an RTC date before 1970) the result is `2^64 + t` seconds
rather than an error or a small value. -/
theorem c10_timestamp_reinterprets_i64_as_u64 (rv : Nat) (t : Int)
    (h1 : -(2 : Int) ^ 63 ≤ t) (h2 : t < 0) :
    ((DateAtBootResponse.mk rv t).timestamp_secs : Int) = 2 ^ 64 + t
    ∧ (DateAtBootResponse.mk rv t).boot_time
        = (DateAtBootResponse.mk rv t).timestamp_secs := by
  constructor
  · simp only [DateAtBootResponse.timestamp_secs, i64AsU64]
    have hM : (2 : Int) ^ 64 = 18446744073709551616 := by norm_num
    have h63 : (2 : Int) ^ 63 = 9223372036854775808 := by norm_num
    rw [h63] at h1
    have h3 : t % ((2 : Int) ^ 64) = t + (2 : Int) ^ 64 := by
      rw [hM]; omega
    rw [h3, Int.toNat_of_nonneg (by rw [hM]; omega)]
    ring
  · rfl

/-- C10 witness: at the concrete raw timestamp `-1`, the accessor yields
`2^64 - 1` seconds. -/
theorem c10_timestamp_witness :
    ((DateAtBootResponse.mk 0 (-1)).timestamp_secs : Int) = 2 ^ 64 + (-1)
    ∧ (DateAtBootResponse.mk 0 (-1)).boot_time
        = (DateAtBootResponse.mk 0 (-1)).timestamp_secs :=
  c10_timestamp_reinterprets_i64_as_u64 0 (-1) (by norm_num) (by norm_num)

/-- Modelled from the spec: the second signature word of the base-revision
tag, the "known sentinel" the bootloader leaves untouched when it does not
understand the requested base revision and overwrites with the loaded
revision when it does. The `BaseRevision` type itself is not among the
sources (only doc-comment callers in `request.rs` mention it), so it is
modelled from spec sections 4.2 and 8; the numeric signature values are the
limine protocol's published words and no claim depends on them beyond the
sentinel being distinct from every echoed revision. -/
def baseRevisionSentinel : Nat := 0x6a7b384944536bdc

/-- Modelled from the spec: the `BaseRevision` revision/compatibility gate,
"a distinguishing two/three-word magic signature followed by a mutable
revision cell" (spec section 4.2); the bootloader either leaves the cells
untouched or signals acceptance by zeroing the revision cell and echoing the
loaded revision over the second signature word. -/
structure BaseRevision where
  magic0 : Nat
  magic1 : Nat
  revision : Nat

/-- Modelled from the spec: construct the gate advertising base revision
`k`; the signature words start at their fixed magic values and the revision
cell holds `k`. -/
def BaseRevision.with_revision (k : Nat) : BaseRevision :=
  ⟨0xf9562b2d5c95a6c8, baseRevisionSentinel, k⟩

/-- Modelled from the spec: the default construction advertises the highest
base revision known to the implementation (3). -/
def BaseRevision.new : BaseRevision :=
  BaseRevision.with_revision 3

/-- Modelled from the spec: the bootloader honoured the requested base
revision exactly when the revision cell now reads 0 (an untouched cell still
holding a non-zero requested revision means the request was not understood
and revision 0 semantics are in effect). -/
def BaseRevision.is_supported (b : BaseRevision) : Bool :=
  b.revision == 0

/-- Modelled from the spec: the revision the bootloader actually loaded,
read from the echo cell; absent while the cell still holds the sentinel. -/
def BaseRevision.loaded_revision (b : BaseRevision) : Option Nat :=
  if b.magic1 = baseRevisionSentinel then Option.none else some b.magic1

/-- Modelled from the spec: the foreign write performed by a bootloader that
accepts the requested base revision and echoes the revision `m` it loaded. -/
def BaseRevision.bootloaderEcho (b : BaseRevision) (m : Nat) : BaseRevision :=
  { b with magic1 := m, revision := 0 }

/-- C9: constructing the base-revision gate with `with_revision(k)` and then
simulating that the bootloader did not touch the revision cell yields
`is_supported() == (k == 0)`; simulating that the bootloader echoed revision
`m` yields `loaded_revision() == Some(m)` (for any echoed revision, which by
protocol is distinct from the sentinel signature word). -/
theorem c9_base_revision_gate (k m : Nat) (hm : m ≠ baseRevisionSentinel) :
    (BaseRevision.with_revision k).is_supported = (k == 0)
    ∧ ((BaseRevision.with_revision k).bootloaderEcho m).loaded_revision
        = some m := by
  refine ⟨rfl, ?_⟩
  simp [BaseRevision.bootloaderEcho, BaseRevision.with_revision,
    BaseRevision.loaded_revision, hm]

/-- C9 witness: requesting base revision 0 on an untouched cell reports
supported, and an echo of revision 3 is read back as `some 3`. -/
theorem c9_base_revision_gate_witness :
    (BaseRevision.with_revision 0).is_supported = (0 == 0)
    ∧ ((BaseRevision.with_revision 0).bootloaderEcho 3).loaded_revision
        = some 3 :=
  c9_base_revision_gate 0 3 (by decide)
